import Mathlib

/-!
Verification development for the Telegram expense bot
(`api/index.py`, `main.py`): a shallow embedding of the category
catalog, the session store, the conversation handlers
(`seleccionar_categoria`, `procesar_mensaje_gasto`), the Google-Sheets
gateway (`conectar_a_sheets`, `guardar_gasto_en_sheets`) and the
webhook endpoint (`telegram_webhook`), together with theorems settling
the specification claims about them.

External effects (datetime.now, the credential environment, the
gspread client, the outcome of `append_row`) are passed in explicitly
as a `SheetsEnv`; handler outputs (replies sent, the per-user session
dict, rows handed to the gateway, uncaught Python exceptions) are
returned as explicit records.
-/

namespace BotGastos

/-! ### Python string primitives -/

/-- The whitespace characters stripped by Python's `str.strip()` /
`float()` (ASCII subset, which covers every input considered here). -/
def isPySpace (c : Char) : Bool :=
  c = ' ' || c = '\t' || c = '\n' || c = '\r' || c = Char.ofNat 11 || c = Char.ofNat 12

/-- Python `str.strip()`: remove leading and trailing whitespace. -/
def pyStrip (s : String) : String :=
  String.mk (((s.data.dropWhile isPySpace).reverse.dropWhile isPySpace).reverse)

/-- Helper for `pySplitOnce`: scan for the first occurrence of `sep`,
accumulating the characters seen so far (in reverse). -/
def splitOnceAux (sep : Char) : List Char → List Char → List String
  | [], acc => [String.mk acc.reverse]
  | c :: cs, acc =>
    if c = sep then [String.mk acc.reverse, String.mk cs]
    else splitOnceAux sep cs (c :: acc)

/-- Python `s.split(sep, 1)` for a one-character separator: split at the
first occurrence of `sep` into at most two parts (the second part keeps
any further occurrences of `sep`). -/
def pySplitOnce (sep : Char) (s : String) : List String :=
  splitOnceAux sep s.data []

/-- Python `s.replace(a, b)` for one-character pattern and replacement:
replace every occurrence of the character `a` by `b`. -/
def pyReplaceChar (a b : Char) (s : String) : String :=
  String.mk (s.data.map (fun c => if c = a then b else c))

/-- Helper for `pySplitAll`: split at every occurrence of `sep`. -/
def splitAllAux (sep : Char) : List Char → List Char → List String
  | [], acc => [String.mk acc.reverse]
  | c :: cs, acc =>
    if c = sep then String.mk acc.reverse :: splitAllAux sep cs []
    else splitAllAux sep cs (c :: acc)

/-- Python `s.split(sep)` with no count limit, for a one-character
separator. -/
def pySplitAll (sep : Char) (s : String) : List String :=
  splitAllAux sep s.data []

/-- Python `str.capitalize()`: first character uppercased, the rest
lowercased (ASCII behaviour, which covers the catalog keys). -/
def pyCapitalize (s : String) : String :=
  match s.data with
  | [] => ""
  | c :: cs => String.mk (c.toUpper :: cs.map Char.toLower)

/-- Character-list version of a Boolean "starts with" test. -/
def listStartsWith : List Char → List Char → Bool
  | [], _ => true
  | _ :: _, [] => false
  | a :: as, b :: bs => a == b && listStartsWith as bs

/-- Boolean substring test: `needle` occurs contiguously in `hay`. -/
def strContains (hay needle : String) : Bool :=
  hay.data.tails.any (fun t => listStartsWith needle.data t)

/-! ### Python `float(str)` -/

/-- The value classes a Python `float` produced by `float(str)` can
fall into.  A finite result is kept exactly as the decimal the literal
denotes, as mantissa `m` and decimal exponent `e` (value `m * 10 ^ e`);
the claims under study only inspect parse success, sign, and
non-finiteness, none of which IEEE-754 rounding alters. -/
inductive PyFloat where
  | finite (m : Int) (e : Int)
  | posInf
  | negInf
  | nan
deriving DecidableEq, Repr

/-- Take the maximal run of ASCII digits from the front. -/
def takeDigits : List Char → List Char × List Char
  | [] => ([], [])
  | c :: cs =>
    if c.isDigit then
      let (d, r) := takeDigits cs
      (c :: d, r)
    else ([], c :: cs)

/-- Numeric value of a digit run. -/
def natOfDigits (ds : List Char) : Nat :=
  ds.foldl (fun n c => 10 * n + (c.toNat - 48)) 0

/-- Parse the mantissa `digits [. digits]` (at least one digit overall),
returning mantissa, decimal exponent, and the unconsumed rest. -/
def parseMantissa (cs : List Char) : Option (Nat × Int × List Char) :=
  let (ip, r1) := takeDigits cs
  match r1 with
  | '.' :: r2 =>
    let (fp, r3) := takeDigits r2
    if ip.isEmpty && fp.isEmpty then none
    else some (natOfDigits (ip ++ fp), -(fp.length : Int), r3)
  | _ =>
    if ip.isEmpty then none else some (natOfDigits ip, 0, r1)

/-- Parse an optional exponent part `(e|E) [sign] digits`. -/
def parseExpPart (cs : List Char) : Option (Int × List Char) :=
  match cs with
  | [] => some (0, [])
  | c :: rest =>
    if c = 'e' || c = 'E' then
      let (sgn, rest2) : Int × List Char :=
        match rest with
        | '+' :: r => (1, r)
        | '-' :: r => (-1, r)
        | r => (1, r)
      let (ds, r3) := takeDigits rest2
      if ds.isEmpty then none else some (sgn * (natOfDigits ds : Int), r3)
    else some (0, c :: rest)

/-- Python's `float(s)` builtin: strip whitespace, read an optional
sign, then either one of the special words `inf` / `infinity` / `nan`
(case-insensitive) or a decimal literal with optional fraction and
exponent.  Returns `none` exactly where Python raises `ValueError`. -/
def pyFloatOfString? (s : String) : Option PyFloat :=
  let cs := (pyStrip s).data
  let (neg, cs2) : Bool × List Char :=
    match cs with
    | '+' :: r => (false, r)
    | '-' :: r => (true, r)
    | r => (false, r)
  let low := cs2.map Char.toLower
  if low = "inf".data || low = "infinity".data then
    some (if neg then PyFloat.negInf else PyFloat.posInf)
  else if low = "nan".data then
    some PyFloat.nan
  else
    match parseMantissa cs2 with
    | none => none
    | some (m, e, r1) =>
      match parseExpPart r1 with
      | none => none
      | some (ex, r2) =>
        if r2.isEmpty then
          some (PyFloat.finite (if neg then -(m : Int) else (m : Int)) (e + ex))
        else none

/-- Strip factors of 10 from the mantissa while the decimal exponent is
negative (fuelled recursion; the fuel always suffices here). -/
def stripTrailingZeros : Nat → Int → Int → Int × Int
  | 0, m, e => (m, e)
  | fuel + 1, m, e =>
    if e < 0 && m % 10 == 0 && m != 0 then stripTrailingZeros fuel (m / 10) (e + 1)
    else (m, e)

/-- Rendering of a `PyFloat` by Python's `str()` inside an f-string,
for the decimal values this bot handles (no claim inspects this text
beyond the reply strings containing it). -/
def pyFloatRepr : PyFloat → String
  | PyFloat.posInf => "inf"
  | PyFloat.negInf => "-inf"
  | PyFloat.nan => "nan"
  | PyFloat.finite m e =>
    if m = 0 then "0.0"
    else
      let (m2, e2) := stripTrailingZeros 400 m e
      let sign := if m2 < 0 then "-" else ""
      let a := m2.natAbs
      if e2 ≥ 0 then
        sign ++ toString (a * 10 ^ e2.toNat) ++ ".0"
      else
        let k := (-e2).toNat
        let ds := (toString a).data
        let ds := if ds.length ≤ k then List.replicate (k + 1 - ds.length) '0' ++ ds else ds
        sign ++ String.mk (ds.take (ds.length - k)) ++ "." ++ String.mk (ds.drop (ds.length - k))

/-! ### Category catalog -/

/-- The `CATEGORIAS` dict: ordered mapping from category key to
emoji-prefixed display label (Python dicts preserve insertion order). -/
def CATEGORIAS : List (String × String) :=
  [("alimentacion", "🥦 Alimentación"),
   ("vivienda", "🏠 Vivienda"),
   ("transporte", "🚗 Transporte"),
   ("salud", "🏥 Salud"),
   ("entretenimiento", "🎮 Entretenimiento"),
   ("ropa", "👕 Ropa"),
   ("otros", "📝 Otros")]

/-- `CATEGORIAS[k]` as a total lookup: `some label` when the key is
present, `none` where Python raises `KeyError`. -/
def catLabel? (k : String) : Option String :=
  CATEGORIAS.lookup k

/-! ### Timestamps (`datetime.now().strftime`) -/

/-- The fields of `datetime.now()` that the two `strftime` calls use. -/
structure PyDateTime where
  year : Nat
  month : Nat
  day : Nat
  hour : Nat
  minute : Nat
  second : Nat
deriving DecidableEq, Repr

/-- Zero-pad to two digits (strftime `%m`, `%d`, `%H`, `%M`, `%S`). -/
def pad2 (n : Nat) : String :=
  if n < 10 then "0" ++ toString n else toString n

/-- Zero-pad to four digits (strftime `%Y`). -/
def pad4 (n : Nat) : String :=
  if n < 10 then "000" ++ toString n
  else if n < 100 then "00" ++ toString n
  else if n < 1000 then "0" ++ toString n
  else toString n

/-- `now.strftime("%Y-%m-%d")`. -/
def fmtDate (d : PyDateTime) : String :=
  pad4 d.year ++ "-" ++ pad2 d.month ++ "-" ++ pad2 d.day

/-- `now.strftime("%Y-%m-%d %H:%M:%S")`. -/
def fmtDateTime (d : PyDateTime) : String :=
  fmtDate d ++ " " ++ pad2 d.hour ++ ":" ++ pad2 d.minute ++ ":" ++ pad2 d.second

/-! ### Ledger gateway (`conectar_a_sheets`, `guardar_gasto_en_sheets`) -/

/-- One cell of the appended spreadsheet row: the Python list mixes
strings and a float. -/
inductive Cell where
  | s (v : String)
  | f (v : PyFloat)
deriving DecidableEq, Repr

/-- The external world as seen by the gateway: whether
`GOOGLE_CREDENTIALS_JSON` is set, the outcome of the
`json.loads` / `authorize` / `open` sequence, the outcome of
`sheet.append_row`, and the wall clock.  Error values stand for the
exceptions the external libraries may raise. -/
structure SheetsEnv where
  credsPresent : Bool
  connectResult : Except String Unit
  appendResult : Except String Unit
  now : PyDateTime

/-- Boolean success test for an `Except` outcome. -/
def exceptOk {ε α : Type} : Except ε α → Bool
  | Except.ok _ => true
  | Except.error _ => false

/-- `conectar_a_sheets()`: returns `None` when the credential variable
is absent, otherwise runs the connect sequence inside `try`, turning
any exception into `None`. -/
def conectar_a_sheets (env : SheetsEnv) : Option Unit :=
  if !env.credsPresent then none
  else
    match env.connectResult with
    | Except.ok _ => some ()
    | Except.error _ => none

/-- The row `fila` built inside `guardar_gasto_en_sheets`:
`[str(user_id), now.strftime("%Y-%m-%d %H:%M:%S"),
now.strftime("%Y-%m-%d"), float(monto), categoria.capitalize(),
descripcion]`. -/
def mk_fila (env : SheetsEnv) (user_id : Nat) (categoria : String)
    (monto : PyFloat) (descripcion : String) : List Cell :=
  [Cell.s (toString user_id),
   Cell.s (fmtDateTime env.now),
   Cell.s (fmtDate env.now),
   Cell.f monto,
   Cell.s (pyCapitalize categoria),
   Cell.s descripcion]

/-- What a call to `guardar_gasto_en_sheets` produced: the boolean it
returned and the row it handed to `append_row`, if it got that far. -/
structure GuardarOut where
  result : Bool
  fila : Option (List Cell)
deriving DecidableEq, Repr

/-- `guardar_gasto_en_sheets(user_id, categoria, monto, descripcion)`:
connect (returning `False` when no sheet was obtained), build `fila`,
append it, and catch any exception from the append as `False`. -/
def guardar_gasto_en_sheets (env : SheetsEnv) (user_id : Nat)
    (categoria : String) (monto : PyFloat) (descripcion : String) : GuardarOut :=
  match conectar_a_sheets env with
  | none => { result := false, fila := none }
  | some _ =>
    let fila := mk_fila env user_id categoria monto descripcion
    match env.appendResult with
    | Except.ok _ => { result := true, fila := some fila }
    | Except.error _ => { result := false, fila := some fila }

/-! ### Reply texts -/

/-- Reply when no category is pending in `context.user_data`. -/
def MSG_NO_CATEGORIA : String :=
  "Por favor, inicia con /gasto para seleccionar una categoría."

/-- Reply of the `except (ValueError, IndexError)` branch. -/
def MSG_ERROR_FORMATO : String :=
  "❌ Error de formato.\n\nUsa el formato: monto descripción\nEjemplo: 120 Pasajes de micro"

/-- Reply when `guardar_gasto_en_sheets` returned `False`. -/
def MSG_ERROR_GUARDAR : String :=
  "❌ Hubo un error al guardar el gasto. Revisa los logs de Vercel."

/-- The success reply, with the category display label, the float as
Python prints it, and the description interpolated. -/
def msgExito (label : String) (monto : PyFloat) (descripcion : String) : String :=
  "✅ ¡Gasto registrado con éxito!\n\nCategoría: " ++ label ++
  "\nMonto: " ++ pyFloatRepr monto ++ "\nDescripción: " ++ descripcion

/-- The prompt `seleccionar_categoria` edits into the menu message. -/
def msgCategoria (label : String) : String :=
  "Categoría: " ++ label ++
  "\n\nAhora, envía el monto y la descripción.\n\n👉 Formato: monto descripción\n👉 Ejemplo: 35.50 Almuerzo con amigos"

/-! ### Python exceptions that can escape a handler -/

/-- Uncaught Python exceptions a handler body can raise. -/
inductive PyErr where
  | keyError (k : String)
  | indexError
deriving DecidableEq, Repr

/-! ### Category selection handler (`seleccionar_categoria`) -/

/-- Outcome of the `seleccionar_categoria` callback handler: the texts
passed to `edit_message_text`, the session entry
`context.user_data["categoria"]` afterwards, and any uncaught
exception. -/
structure SelOut where
  edits : List String
  session : Option String
  fault : Option PyErr
deriving DecidableEq, Repr

/-- `seleccionar_categoria`: decode the key as
`query.data.split("_", 1)[1]` (an `IndexError` when there is no
underscore), store it into `context.user_data["categoria"]`, then build
the prompt — the `CATEGORIAS[...]` lookup in the f-string raises
`KeyError` for a key outside the catalog, after the session was already
written. -/
def seleccionar_categoria (session : Option String) (data : String) : SelOut :=
  let parts := pySplitOnce '_' data
  if parts.length < 2 then
    { edits := [], session := session, fault := some PyErr.indexError }
  else
    let k := parts.getD 1 ""
    match catLabel? k with
    | none => { edits := [], session := some k, fault := some (PyErr.keyError k) }
    | some label => { edits := [msgCategoria label], session := some k, fault := none }

/-- The decoding done by `api/index.py`: `query.data.split("_", 1)[1]`. -/
def decode_callback_index (data : String) : String :=
  (pySplitOnce '_' data).getD 1 ""

/-- The decoding done by `main.py`: `query.data.split('_')[1]`. -/
def decode_callback_main (data : String) : String :=
  (pySplitAll '_' data).getD 1 ""

/-! ### Category menu (`nuevo_gasto`) -/

/-- An inline keyboard button: display text and callback data. -/
structure Button where
  text : String
  callback_data : String
deriving DecidableEq, Repr

/-- The keyboard-building loop of `nuevo_gasto`: walk the catalog,
emitting a button `InlineKeyboardButton(value, "categoria_" + key)` per
entry, closing a row after every second button, and appending the
trailing partial row if any. -/
def keyboardAux : List (String × String) → List Button → List (List Button)
  | [], row => if row.isEmpty then [] else [row]
  | kv :: rest, row =>
    let row2 := row ++ [{ text := kv.2, callback_data := "categoria_" ++ kv.1 }]
    if row2.length = 2 then row2 :: keyboardAux rest []
    else keyboardAux rest row2

/-- The keyboard `nuevo_gasto` sends with the category prompt. -/
def nuevo_gasto_keyboard : List (List Button) :=
  keyboardAux CATEGORIAS []

/-! ### Expense message handler (`procesar_mensaje_gasto`) -/

/-- Outcome of the `procesar_mensaje_gasto` message handler: replies
sent, session afterwards, rows submitted to the gateway, and any
uncaught exception. -/
structure ProcOut where
  replies : List String
  session : Option String
  gwCalls : List (List Cell)
  fault : Option PyErr
deriving DecidableEq, Repr

/-- `procesar_mensaje_gasto` (the `api/index.py` version): bail out
when no category is pending; otherwise strip the text, split it at the
first space with `split(" ", 1)`, run `float` on part one with commas
replaced by dots (`ValueError` lands in the format-error reply), default
the description to "Sin descripción", call the gateway, and on a `True`
result build the success reply — whose `CATEGORIAS[categoria]` lookup
raises `KeyError` if the stored key is not in the catalog — then send
the reply and `context.user_data.clear()`; on a `False` result send the
storage-failure reply and likewise clear the session. -/
def procesar_mensaje_gasto (env : SheetsEnv) (session : Option String)
    (user_id : Nat) (text : String) : ProcOut :=
  match session with
  | none =>
    { replies := [MSG_NO_CATEGORIA], session := none, gwCalls := [], fault := none }
  | some categoria =>
    let texto := pyStrip text
    let partes := pySplitOnce ' ' texto
    match pyFloatOfString? (pyReplaceChar ',' '.' (partes.headD "")) with
    | none =>
      { replies := [MSG_ERROR_FORMATO], session := some categoria,
        gwCalls := [], fault := none }
    | some monto =>
      let descripcion := if partes.length > 1 then partes.getD 1 "" else "Sin descripción"
      let out := guardar_gasto_en_sheets env user_id categoria monto descripcion
      let calls := match out.fila with
        | none => []
        | some f => [f]
      if out.result then
        match catLabel? categoria with
        | none =>
          { replies := [], session := some categoria, gwCalls := calls,
            fault := some (PyErr.keyError categoria) }
        | some label =>
          { replies := [msgExito label monto descripcion], session := none,
            gwCalls := calls, fault := none }
      else
        { replies := [MSG_ERROR_GUARDAR], session := none, gwCalls := calls,
          fault := none }

/-! ### Webhook endpoint (`telegram_webhook`) -/

/-- Outcome of the inner `try` block of the webhook (the
`Update.de_json` call plus the application start / process / stop
cycle): it either completes or raises some exception. -/
inductive HandlerOutcome where
  | ok
  | raise (e : String)
deriving DecidableEq, Repr

/-- `telegram_webhook(request)`: `request.json()` failing yields status
400; otherwise the update-processing block runs, a raised exception is
caught and yields status 500, and completion yields status 204. -/
def telegram_webhook (jsonBody : Option String)
    (processUpdate : String → HandlerOutcome) : Nat :=
  match jsonBody with
  | none => 400
  | some body =>
    match processUpdate body with
    | HandlerOutcome.ok => 204
    | HandlerOutcome.raise _ => 500

/-- 2xx test: is an HTTP status a success acknowledgment? -/
def isSuccessStatus (n : Nat) : Bool :=
  200 ≤ n && n < 300

/-! ### Concrete environments used by the scenarios -/

/-- Environment in which credentials are present and both the connect
sequence and the append succeed. -/
def envOK : SheetsEnv :=
  { credsPresent := true, connectResult := Except.ok (),
    appendResult := Except.ok (),
    now := { year := 2026, month := 10, day := 12, hour := 13, minute := 5, second := 30 } }

/-- Environment in which the append raises inside the gateway. -/
def envAppendFail : SheetsEnv :=
  { envOK with appendResult := Except.error "APIError" }

/-- Environment with `GOOGLE_CREDENTIALS_JSON` unset. -/
def envNoCreds : SheetsEnv :=
  { envOK with credsPresent := false }

/-! ### Claim-side parsing rule (for the refinement comparison) -/

/-- Modelled from the claim's words, for comparison with the code:
"parsing splits the text on the first whitespace run into at most two
parts" — the part before the first maximal run of whitespace, and the
part after it (absent when the text contains no whitespace or only
trailing whitespace). -/
def splitWsRun1 (s : String) : List String :=
  let before := s.data.takeWhile (fun c => !isPySpace c)
  let rest := (s.data.drop before.length).dropWhile isPySpace
  if before.length = s.data.length ∨ rest.isEmpty then [String.mk before]
  else [String.mk before, String.mk rest]

/-! ## Helper lemmas -/

/-- The length bound of `split(sep, 1)`: at most two parts. -/
theorem splitOnceAux_length_le (sep : Char) (cs : List Char) :
    ∀ acc, (splitOnceAux sep cs acc).length ≤ 2 := by
  induction cs with
  | nil => intro acc; simp [splitOnceAux]
  | cons c cs ih =>
    intro acc
    simp only [splitOnceAux]
    split
    · simp
    · exact ih _

/-- `pySplitOnce` yields at most two parts. -/
theorem pySplitOnce_length_le (sep : Char) (s : String) :
    (pySplitOnce sep s).length ≤ 2 :=
  splitOnceAux_length_le sep s.data []

/-- Splitting `"categoria_" ++ k` at the first underscore recovers the
key `k` exactly, for every string `k`. -/
theorem pySplitOnce_categoria (k : String) :
    pySplitOnce '_' ("categoria_" ++ k) = ["categoria", k] := by
  cases k with
  | mk d =>
    show splitOnceAux '_' (String.data ("categoria_" ++ ⟨d⟩)) [] = _
    rw [String.data_append]
    simp [splitOnceAux]

/-- The boolean returned by the gateway, as a function of the
environment: `True` exactly when the credentials are present and both
the connect sequence and the append succeed. -/
theorem guardar_result_eq (env : SheetsEnv) (uid : Nat) (c : String)
    (m : PyFloat) (d : String) :
    (guardar_gasto_en_sheets env uid c m d).result =
      (env.credsPresent && exceptOk env.connectResult && exceptOk env.appendResult) := by
  rcases env with ⟨creds, conn, app, now⟩
  cases creds <;> cases conn <;> cases app <;>
    simp [guardar_gasto_en_sheets, conectar_a_sheets, exceptOk]

/-- Whenever a sheet connection was obtained, the row handed to
`append_row` is exactly `fila` as built in the source. -/
theorem guardar_fila_eq (env : SheetsEnv) (uid : Nat) (c : String)
    (m : PyFloat) (d : String) (h : conectar_a_sheets env = some ()) :
    (guardar_gasto_en_sheets env uid c m d).fila = some (mk_fila env uid c m d) := by
  unfold guardar_gasto_en_sheets
  rw [h]
  cases env.appendResult <;> simp

/-! ## Claim C5 -/

/-- Claim C5: every failure inside the Ledger Gateway — connect-sequence
exceptions, append exceptions, and in particular absent credential
configuration — is caught and reported as the boolean `False`; the
gateway is a total function into a result record with no exception
channel, its boolean fully determined by the environment, and with no
credentials it reports `False` without attempting an append. -/
theorem c5_gateway_never_raises (env : SheetsEnv) (uid : Nat) (c : String)
    (m : PyFloat) (d : String) :
    (guardar_gasto_en_sheets env uid c m d).result =
      (env.credsPresent && exceptOk env.connectResult && exceptOk env.appendResult) ∧
    (env.credsPresent = false →
      guardar_gasto_en_sheets env uid c m d = { result := false, fila := none }) := by
  refine ⟨guardar_result_eq env uid c m d, ?_⟩
  intro h
  unfold guardar_gasto_en_sheets conectar_a_sheets
  rw [h]
  simp

/-- Witness for C5 at a concrete environment with missing credentials. -/
theorem c5_witness :
    guardar_gasto_en_sheets envNoCreds 1 "otros" (PyFloat.finite 1 0) "x" =
      { result := false, fila := none } :=
  (c5_gateway_never_raises envNoCreds 1 "otros" (PyFloat.finite 1 0) "x").2 rfl

/-! ## Claim C7 -/

/-- Claim C7: for every free-text message whose first space-delimited
token does not parse as a Python float (including the empty message),
the handler in the `AWAITING_AMOUNT` state replies with the
format-error text and mutates nothing: the session keeps the previously
selected category, no gateway call is made, and no exception escapes. -/
theorem c7_malformed_no_mutation (env : SheetsEnv) (k : String) (uid : Nat)
    (t : String)
    (h : pyFloatOfString? (pyReplaceChar ',' '.' ((pySplitOnce ' ' (pyStrip t)).headD "")) = none) :
    procesar_mensaje_gasto env (some k) uid t =
      { replies := [MSG_ERROR_FORMATO], session := some k, gwCalls := [], fault := none } := by
  unfold procesar_mensaje_gasto
  simp only [h]

/-- Witness for C7 at Scenario C's input. -/
theorem c7_witness :
    pyFloatOfString? (pyReplaceChar ',' '.' ((pySplitOnce ' ' (pyStrip "notanumber algo")).headD "")) = none ∧
    procesar_mensaje_gasto envOK (some "alimentacion") 1 "notanumber algo" =
      { replies := [MSG_ERROR_FORMATO], session := some "alimentacion",
        gwCalls := [], fault := none } :=
  ⟨by decide, c7_malformed_no_mutation envOK "alimentacion" 1 "notanumber algo" (by decide)⟩

/-! ## Claim C1 (corrected) -/

/-- Counterexample to C1 as stated: a well-formed submission whose
append fails produces the storage-failure reply, but the session is
cleared — `get_category` afterwards is absent, not the previously
chosen key. -/
theorem c1_counterexample :
    procesar_mensaje_gasto envAppendFail (some "alimentacion") 7 "35.50 cafe" =
      { replies := [MSG_ERROR_GUARDAR], session := none,
        gwCalls := [[Cell.s "7", Cell.s "2026-10-12 13:05:30", Cell.s "2026-10-12",
                     Cell.f (PyFloat.finite 3550 (-2)), Cell.s "Alimentacion", Cell.s "cafe"]],
        fault := none } ∧
    (procesar_mensaje_gasto envAppendFail (some "alimentacion") 7 "35.50 cafe").session ≠
      some "alimentacion" := by
  decide

/-- Claim C1 (amended): for every well-formed expense submission whose
Ledger Gateway append reports failure, the controller emits the
storage-failure message and then clears the session exactly as in the
success path — the selected category is not retained, and no exception
escapes. -/
theorem c1_failure_clears_session (env : SheetsEnv) (k : String) (uid : Nat)
    (t : String) (m : PyFloat)
    (hparse : pyFloatOfString? (pyReplaceChar ',' '.' ((pySplitOnce ' ' (pyStrip t)).headD "")) = some m)
    (hfail : (env.credsPresent && exceptOk env.connectResult && exceptOk env.appendResult) = false) :
    (procesar_mensaje_gasto env (some k) uid t).replies = [MSG_ERROR_GUARDAR] ∧
    (procesar_mensaje_gasto env (some k) uid t).session = none ∧
    (procesar_mensaje_gasto env (some k) uid t).fault = none := by
  have hres :
      (guardar_gasto_en_sheets env uid k m
        (if (pySplitOnce ' ' (pyStrip t)).length > 1
         then (pySplitOnce ' ' (pyStrip t)).getD 1 "" else "Sin descripción")).result = false := by
    rw [guardar_result_eq, hfail]
  unfold procesar_mensaje_gasto
  simp only [hparse, hres]
  simp

/-- Witness for the amended C1 at Scenario E's shape of input. -/
theorem c1_witness :
    pyFloatOfString? (pyReplaceChar ',' '.' ((pySplitOnce ' ' (pyStrip "35.50 cena")).headD "")) =
      some (PyFloat.finite 3550 (-2)) ∧
    (envAppendFail.credsPresent && exceptOk envAppendFail.connectResult &&
      exceptOk envAppendFail.appendResult) = false ∧
    ((procesar_mensaje_gasto envAppendFail (some "vivienda") 7 "35.50 cena").replies =
        [MSG_ERROR_GUARDAR] ∧
      (procesar_mensaje_gasto envAppendFail (some "vivienda") 7 "35.50 cena").session = none ∧
      (procesar_mensaje_gasto envAppendFail (some "vivienda") 7 "35.50 cena").fault = none) :=
  ⟨by decide, by decide,
   c1_failure_clears_session envAppendFail "vivienda" 7 "35.50 cena"
     (PyFloat.finite 3550 (-2)) (by decide) (by decide)⟩

/-! ## Claim C2 (corrected) -/

/-- Counterexample to C2 as stated: a successful submission for key
`"alimentacion"` stores `"Alimentacion"` — the capitalized raw key —
in the category column, not the catalog's display label
`"🥦 Alimentación"`. -/
theorem c2_counterexample :
    (procesar_mensaje_gasto envOK (some "alimentacion") 42 "35.50 cafe").gwCalls =
      [[Cell.s "42", Cell.s "2026-10-12 13:05:30", Cell.s "2026-10-12",
        Cell.f (PyFloat.finite 3550 (-2)), Cell.s "Alimentacion", Cell.s "cafe"]] ∧
    catLabel? "alimentacion" = some "🥦 Alimentación" ∧
    Cell.s "Alimentacion" ≠ Cell.s "🥦 Alimentación" := by
  decide

/-- Claim C2 (amended): every row handed to the ledger has the layout
`[user_id as string, recorded_at "YYYY-MM-DD HH:MM:SS", expense_date
"YYYY-MM-DD", amount as number, category, description]` in that order,
where the category field is the selected key passed through Python's
`capitalize()` (first letter uppercased, rest lowercased) — the raw
key, not the emoji-prefixed display label. -/
theorem c2_row_layout (env : SheetsEnv) (uid : Nat) (k : String)
    (m : PyFloat) (d : String) (h : conectar_a_sheets env = some ()) :
    (guardar_gasto_en_sheets env uid k m d).fila =
      some [Cell.s (toString uid), Cell.s (fmtDateTime env.now), Cell.s (fmtDate env.now),
            Cell.f m, Cell.s (pyCapitalize k), Cell.s d] :=
  guardar_fila_eq env uid k m d h

/-- Witness for the amended C2 at a concrete successful submission. -/
theorem c2_witness :
    conectar_a_sheets envOK = some () ∧
    (guardar_gasto_en_sheets envOK 42 "alimentacion" (PyFloat.finite 3550 (-2)) "cafe").fila =
      some [Cell.s (toString 42), Cell.s (fmtDateTime envOK.now), Cell.s (fmtDate envOK.now),
            Cell.f (PyFloat.finite 3550 (-2)), Cell.s (pyCapitalize "alimentacion"),
            Cell.s "cafe"] :=
  ⟨rfl, c2_row_layout envOK 42 "alimentacion" (PyFloat.finite 3550 (-2)) "cafe" rfl⟩

/-! ## Claim C3 (corrected) -/

/-- Counterexample to C3 as stated: selecting the out-of-catalog key
`"foo"` leaves the session holding `"foo"` (the state is mutated, not
unchanged) and raises an uncaught `KeyError` instead of producing a
user-visible error message. -/
theorem c3_counterexample :
    seleccionar_categoria none "categoria_foo" =
      { edits := [], session := some "foo", fault := some (PyErr.keyError "foo") } ∧
    catLabel? "foo" = none ∧
    (seleccionar_categoria none "categoria_foo").session ≠ none := by
  decide

/-- Claim C3 (amended): for every CategorySelected event whose key K is
not in the catalog, the handler first writes K into the session and
then raises an uncaught `KeyError` while building the reply — no
user-visible message is emitted, and the session is left holding the
unknown key. -/
theorem c3_unknown_key_mutates_then_faults (s : Option String) (k : String)
    (h : catLabel? k = none) :
    seleccionar_categoria s ("categoria_" ++ k) =
      { edits := [], session := some k, fault := some (PyErr.keyError k) } := by
  unfold seleccionar_categoria
  rw [pySplitOnce_categoria]
  simp [h]

/-- Witness for the amended C3 at the unknown key `"zzz"`. -/
theorem c3_witness :
    catLabel? "zzz" = none ∧
    seleccionar_categoria (some "ropa") ("categoria_" ++ "zzz") =
      { edits := [], session := some "zzz", fault := some (PyErr.keyError "zzz") } :=
  ⟨by decide, c3_unknown_key_mutates_then_faults (some "ropa") "zzz" (by decide)⟩

/-! ## Claim C4 (corrected) -/

/-- Counterexample to C4 as stated: on `"35.50\tcafe"` a split on the
first whitespace run would give amount token `"35.50"` (which parses)
and description `"cafe"`, but the code splits only on the space
character, `float("35.50\tcafe")` raises, and the message is routed to
the format-error branch with nothing submitted. -/
theorem c4_counterexample :
    splitWsRun1 "35.50\tcafe" = ["35.50", "cafe"] ∧
    pyFloatOfString? "35.50" = some (PyFloat.finite 3550 (-2)) ∧
    procesar_mensaje_gasto envOK (some "transporte") 7 "35.50\tcafe" =
      { replies := [MSG_ERROR_FORMATO], session := some "transporte",
        gwCalls := [], fault := none } := by
  decide

/-- Claim C4 (amended): parsing strips surrounding whitespace and splits
the text at the first space character (U+0020) only, into at most two
parts; the first part, with commas replaced by dots, is parsed as the
amount — so `"35,50"` yields the same value as `"35.50"` — and the
second part, verbatim, is the description; when it is absent the
submitted description is the non-empty default `"Sin descripción"`. -/
theorem c4_parsing_rule :
    (∀ (sep : Char) (s : String), (pySplitOnce sep s).length ≤ 2) ∧
    pyFloatOfString? (pyReplaceChar ',' '.' "35,50") = pyFloatOfString? "35.50" ∧
    ("Sin descripción" ≠ "") ∧
    (∀ (env : SheetsEnv) (k : String) (uid : Nat) (t : String) (m : PyFloat),
      conectar_a_sheets env = some () →
      pyFloatOfString? (pyReplaceChar ',' '.' ((pySplitOnce ' ' (pyStrip t)).headD "")) = some m →
      (procesar_mensaje_gasto env (some k) uid t).gwCalls =
        [mk_fila env uid k m
          (if (pySplitOnce ' ' (pyStrip t)).length > 1
           then (pySplitOnce ' ' (pyStrip t)).getD 1 "" else "Sin descripción")]) := by
  refine ⟨pySplitOnce_length_le, by decide, by decide, ?_⟩
  intro env k uid t m hconn hparse
  have hfila := guardar_fila_eq env uid k m
    (if (pySplitOnce ' ' (pyStrip t)).length > 1
     then (pySplitOnce ' ' (pyStrip t)).getD 1 "" else "Sin descripción") hconn
  unfold procesar_mensaje_gasto
  simp only [hparse, hfila]
  split <;> (try split) <;> (try split) <;> rfl

/-- Witness for the amended C4 at Scenario D's input `"120"` (no
description). -/
theorem c4_witness :
    conectar_a_sheets envOK = some () ∧
    pyFloatOfString? (pyReplaceChar ',' '.' ((pySplitOnce ' ' (pyStrip "120")).headD "")) =
      some (PyFloat.finite 120 0) ∧
    (procesar_mensaje_gasto envOK (some "transporte") 7 "120").gwCalls =
      [mk_fila envOK 7 "transporte" (PyFloat.finite 120 0) "Sin descripción"] :=
  ⟨rfl, by decide,
   c4_parsing_rule.2.2.2 envOK "transporte" 7 "120" (PyFloat.finite 120 0) rfl (by decide)⟩

/-! ## Claim C6 -/

/-- Claim C6: after `CategorySelected("alimentacion")` and
`TextMessage("35.50 Almuerzo con amigos")` with the gateway
succeeding, the selection stored `"alimentacion"`, the single final
reply contains `"✅"` and the display label `"🥦 Alimentación"`, and
the session is cleared (`get_category` returns absent). -/
theorem c6_scenario_a :
    (seleccionar_categoria none "categoria_alimentacion").session = some "alimentacion" ∧
    (procesar_mensaje_gasto envOK (some "alimentacion") 42 "35.50 Almuerzo con amigos").replies.length = 1 ∧
    strContains
      ((procesar_mensaje_gasto envOK (some "alimentacion") 42 "35.50 Almuerzo con amigos").replies.headD "")
      "✅" = true ∧
    strContains
      ((procesar_mensaje_gasto envOK (some "alimentacion") 42 "35.50 Almuerzo con amigos").replies.headD "")
      "🥦 Alimentación" = true ∧
    (procesar_mensaje_gasto envOK (some "alimentacion") 42 "35.50 Almuerzo con amigos").session = none := by
  decide

/-! ## Claim C8 (corrected) -/

/-- Counterexample to C8 as stated: a payload that parses as JSON but
whose update-processing block raises is answered with status 500, which
is not a successful acknowledgment. -/
theorem c8_counterexample :
    telegram_webhook (some "notanupdate") (fun _ => HandlerOutcome.raise "TypeError") = 500 ∧
    isSuccessStatus 500 = false := by
  decide

/-- Claim C8 (amended): an unparseable payload is answered with the
client-error status 400; a parseable payload whose processing completes
is acknowledged with 204 — in particular a gateway write failure is
reported inside the conversation (no exception reaches the adapter), so
such requests still get 204 — but when processing does raise, the
adapter catches the fault and answers 500, a non-success status, rather
than letting it propagate unhandled. -/
theorem c8_webhook_statuses :
    (∀ p, telegram_webhook none p = 400) ∧
    (∀ b p, p b = HandlerOutcome.ok →
      telegram_webhook (some b) p = 204 ∧ isSuccessStatus 204 = true) ∧
    (∀ b p e, p b = HandlerOutcome.raise e →
      telegram_webhook (some b) p = 500 ∧ isSuccessStatus 500 = false) ∧
    (procesar_mensaje_gasto envAppendFail (some "alimentacion") 1 "35.50 cafe").fault = none := by
  refine ⟨fun p => rfl, fun b p h => ⟨?_, rfl⟩, fun b p e h => ⟨?_, rfl⟩, by decide⟩
  · have hstep : telegram_webhook (some b) p =
        match p b with
        | HandlerOutcome.ok => 204
        | HandlerOutcome.raise _ => 500 := rfl
    rw [hstep, h]
  · have hstep : telegram_webhook (some b) p =
        match p b with
        | HandlerOutcome.ok => 204
        | HandlerOutcome.raise _ => 500 := rfl
    rw [hstep, h]

/-- Witness for the amended C8 at a concrete completed request. -/
theorem c8_witness :
    (fun _ => HandlerOutcome.ok) "body" = HandlerOutcome.ok ∧
    telegram_webhook (some "body") (fun _ => HandlerOutcome.ok) = 204 :=
  ⟨rfl, (c8_webhook_statuses.2.1 "body" (fun _ => HandlerOutcome.ok) rfl).1⟩

/-! ## Claim C9 -/

/-- Claim C9: for every category key K in the catalog, the menu builder
emits a button whose callback data is `"categoria_" ++ K`, both
variants' decodings (split with count 1 and full split, taking index 1)
recover exactly K, and the selection handler stores exactly K in the
session. -/
theorem c9_callback_roundtrip :
    ∀ k l, (k, l) ∈ CATEGORIAS →
      ({ text := l, callback_data := "categoria_" ++ k } : Button) ∈ nuevo_gasto_keyboard.flatten ∧
      decode_callback_index ("categoria_" ++ k) = k ∧
      decode_callback_main ("categoria_" ++ k) = k ∧
      (seleccionar_categoria none ("categoria_" ++ k)).session = some k := by
  intro k l h
  fin_cases h <;> refine ⟨?_, ?_, ?_, ?_⟩ <;> decide

/-- Witness for C9 at the catalog key `"transporte"`. -/
theorem c9_witness :
    ("transporte", "🚗 Transporte") ∈ CATEGORIAS ∧
    (({ text := "🚗 Transporte", callback_data := "categoria_" ++ "transporte" } : Button) ∈
        nuevo_gasto_keyboard.flatten ∧
      decode_callback_index ("categoria_" ++ "transporte") = "transporte" ∧
      decode_callback_main ("categoria_" ++ "transporte") = "transporte" ∧
      (seleccionar_categoria none ("categoria_" ++ "transporte")).session = some "transporte") :=
  ⟨by decide, c9_callback_roundtrip "transporte" "🚗 Transporte" (by decide)⟩

/-! ## Claim C10 -/

/-- Claim C10: the amount parse performs no range or finiteness
validation — `"-5 taxi"`, `"inf x"` and `"nan lunch"` all escape the
format-error branch, and records carrying a negative, infinite and NaN
amount respectively are submitted to the gateway. -/
theorem c10_no_range_or_finiteness_check :
    (procesar_mensaje_gasto envOK (some "transporte") 7 "-5 taxi").gwCalls =
      [[Cell.s "7", Cell.s "2026-10-12 13:05:30", Cell.s "2026-10-12",
        Cell.f (PyFloat.finite (-5) 0), Cell.s "Transporte", Cell.s "taxi"]] ∧
    (-5 : Int) < 0 ∧
    (procesar_mensaje_gasto envOK (some "transporte") 7 "-5 taxi").replies =
      [msgExito "🚗 Transporte" (PyFloat.finite (-5) 0) "taxi"] ∧
    (procesar_mensaje_gasto envOK (some "transporte") 7 "inf x").gwCalls =
      [[Cell.s "7", Cell.s "2026-10-12 13:05:30", Cell.s "2026-10-12",
        Cell.f PyFloat.posInf, Cell.s "Transporte", Cell.s "x"]] ∧
    (procesar_mensaje_gasto envOK (some "transporte") 7 "nan lunch").gwCalls =
      [[Cell.s "7", Cell.s "2026-10-12 13:05:30", Cell.s "2026-10-12",
        Cell.f PyFloat.nan, Cell.s "Transporte", Cell.s "lunch"]] := by
  decide

end BotGastos
